import Mathlib

/-!
Shallow embedding of the pipe2moq repository (src/lib.rs, src/main.rs):
a GStreamer capture thread feeding an MoQ publisher task through a bounded
tokio mpsc channel, together with the configuration merge performed in main.
Each definition is translated from the Rust source; line numbers refer to
the repository files.
-/

namespace Pipe2Moq

/-- Payload bytes of one encoded Opus unit (`Bytes` in the source). -/
abbrev Payload := List Nat

/-- One element of the frame channel: lib.rs line 93 creates
`mpsc::channel::<(Bytes, u64)>(100)`, so a frame is a payload together with
its presentation timestamp in microseconds. -/
structure Frame where
  payload : Payload
  timestamp_us : Nat
deriving DecidableEq, Repr

/-- lib.rs line 93: the channel is created with capacity literal 100. -/
def frameChannelCapacity : Nat := 100

/-- State of the bounded mpsc frame channel.  `buffer` holds the frames sent
but not yet received, oldest first; `closed` records that the producer half
has been dropped.  `sent` and `received` are history fields recording every
frame ever successfully sent and every frame ever received, in order. -/
structure ChanState where
  buffer : List Frame
  closed : Bool
  sent : List Frame
  received : List Frame
deriving DecidableEq, Repr

/-- The channel as created in Pipe2Moq::run, before either driver acts. -/
def chanInit : ChanState :=
  { buffer := [], closed := false, sent := [], received := [] }

/-- The observable channel operations: a successful bounded send, a receive
returning a frame, a receive returning the terminal marker `None`, and the
drop of the producer half. -/
inductive ChanEvent where
  | send (f : Frame)
  | recvSome
  | recvNone
  | close
deriving DecidableEq, Repr

/-- Which operations can complete in a given state (tokio mpsc semantics as
used by the source): a send completes only while the channel is open and the
buffer is below capacity (otherwise the sender blocks), a receive yields a
frame only from a non-empty buffer, and yields `None` only once the buffer is
empty and the producer half is gone. -/
def chanEnabled (cap : Nat) (s : ChanState) : ChanEvent → Bool
  | ChanEvent.send _ => !s.closed && decide (s.buffer.length < cap)
  | ChanEvent.recvSome => decide (s.buffer ≠ [])
  | ChanEvent.recvNone => s.buffer.isEmpty && s.closed
  | ChanEvent.close => !s.closed

/-- Effect of each channel operation on the state. -/
def chanStep (s : ChanState) : ChanEvent → ChanState
  | ChanEvent.send f => { s with buffer := s.buffer ++ [f], sent := s.sent ++ [f] }
  | ChanEvent.recvSome =>
      match s.buffer with
      | [] => s
      | b :: rest => { s with buffer := rest, received := s.received ++ [b] }
  | ChanEvent.recvNone => s
  | ChanEvent.close => { s with closed := true }

/-- Run a sequence of channel operations; `none` means some operation in the
sequence could not complete (that interleaving is impossible: the operation
would have blocked). -/
def chanExec (cap : Nat) (s : ChanState) : List ChanEvent → Option ChanState
  | [] => some s
  | e :: es => if chanEnabled cap s e then chanExec cap (chanStep s e) es else none

theorem chanStep_preserves (cap : Nat) (s : ChanState) (e : ChanEvent)
    (h1 : s.received ++ s.buffer = s.sent) (h2 : s.buffer.length ≤ cap)
    (he : chanEnabled cap s e = true) :
    (chanStep s e).received ++ (chanStep s e).buffer = (chanStep s e).sent
      ∧ (chanStep s e).buffer.length ≤ cap := by
  cases e with
  | send f =>
      simp only [chanEnabled, Bool.and_eq_true, decide_eq_true_eq] at he
      constructor
      · simp [chanStep, ← h1, List.append_assoc]
      · simp only [chanStep, List.length_append, List.length_cons, List.length_nil]
        omega
  | recvSome =>
      simp only [chanEnabled, decide_eq_true_eq] at he
      cases hb : s.buffer with
      | nil => exact absurd hb he
      | cons b rest =>
          rw [hb] at h1 h2
          constructor
          · simp [chanStep, hb, ← h1, List.append_assoc]
          · simp only [chanStep, hb]
            simp only [List.length_cons] at h2
            omega
  | recvNone => exact ⟨h1, h2⟩
  | close => exact ⟨h1, h2⟩

theorem chanExec_preserves (cap : Nat) (es : List ChanEvent) :
    ∀ s s' : ChanState, chanExec cap s es = some s' →
      s.received ++ s.buffer = s.sent → s.buffer.length ≤ cap →
      s'.received ++ s'.buffer = s'.sent ∧ s'.buffer.length ≤ cap := by
  induction es with
  | nil =>
      intro s s' h h1 h2
      simp only [chanExec, Option.some.injEq] at h
      exact h ▸ ⟨h1, h2⟩
  | cons e es ih =>
      intro s s' h h1 h2
      by_cases he : chanEnabled cap s e = true
      · rw [chanExec, if_pos he] at h
        have hstep := chanStep_preserves cap s e h1 h2 he
        exact ih (chanStep s e) s' h hstep.1 hstep.2
      · rw [chanExec, if_neg he] at h
        exact absurd h (by simp)

/-- C4: the Frame Channel created by Pipe2Moq::run is a bounded FIFO queue of
capacity exactly 100, and along every possible interleaving of channel
operations the frames received are exactly a prefix of the frames sent, in
production order (no loss, no duplication, no reordering), the buffer never
exceeds the capacity, and once the channel is closed and drained the consumer
has received exactly the frames the producer successfully sent. -/
theorem c4_frame_channel_fifo :
    frameChannelCapacity = 100 ∧
    ∀ (es : List ChanEvent) (s' : ChanState),
      chanExec frameChannelCapacity chanInit es = some s' →
        s'.received ++ s'.buffer = s'.sent ∧
        s'.buffer.length ≤ frameChannelCapacity ∧
        (s'.closed = true → s'.buffer = [] → s'.received = s'.sent) := by
  refine ⟨rfl, ?_⟩
  intro es s' h
  have hinv := chanExec_preserves frameChannelCapacity es chanInit s' h
      (by simp [chanInit]) (by simp [chanInit])
  refine ⟨hinv.1, hinv.2, ?_⟩
  intro _ hb
  have := hinv.1
  rw [hb] at this
  simpa using this

/-- A concrete frame used in witness runs. -/
def frameA : Frame := { payload := [1], timestamp_us := 0 }

/-- A second concrete frame used in witness runs. -/
def frameB : Frame := { payload := [2, 3], timestamp_us := 20000 }

/-- A concrete interleaving: two sends, a receive, the producer drop, the
final receive of the buffered frame, and the terminal receive. -/
def traceEx : List ChanEvent :=
  [ChanEvent.send frameA, ChanEvent.send frameB, ChanEvent.recvSome,
   ChanEvent.close, ChanEvent.recvSome, ChanEvent.recvNone]

theorem c4_frame_channel_fifo_witness :
    ({ buffer := [], closed := true, sent := [frameA, frameB],
       received := [frameA, frameB] } : ChanState).received
      = ({ buffer := [], closed := true, sent := [frameA, frameB],
           received := [frameA, frameB] } : ChanState).sent :=
  (c4_frame_channel_fifo.2 traceEx
    { buffer := [], closed := true, sent := [frameA, frameB],
      received := [frameA, frameB] } rfl).2.2 rfl rfl

/-- The sequence of values returned by `frame_receiver.recv()` to the
publisher's `while let Some` loop (lib.rs line 272) once the producer half of
the channel has been dropped with `buf` still buffered: each buffered frame
in order, then the terminal marker, after which the loop has exited and never
calls `recv` again. -/
def drainClosed : List Frame → List (Option Frame)
  | [] => [none]
  | f :: rest => some f :: drainClosed rest

theorem drainClosed_eq (fs : List Frame) :
    drainClosed fs = fs.map some ++ [none] := by
  induction fs with
  | nil => rfl
  | cons f rest ih => simp [drainClosed, ih]

theorem drainClosed_one_terminal (fs : List Frame) :
    (drainClosed fs).countP (fun o => o.isNone) = 1 := by
  induction fs with
  | nil => rfl
  | cons f rest ih => simpa [drainClosed, List.countP_cons] using ih

/-- C5: the terminal receive is enabled exactly when the producer half has
been dropped and the buffer is empty, and the publisher's drain loop on a
closed channel observes each buffered frame once, in order, followed by the
terminal marker exactly once — never a stale or phantom frame — after which
the loop terminates (drainClosed is a total function of the buffer). -/
theorem c5_closed_channel_terminal :
    (∀ (cap : Nat) (s : ChanState),
        chanEnabled cap s ChanEvent.recvNone = true ↔
          (s.buffer = [] ∧ s.closed = true)) ∧
    (∀ fs : List Frame,
        drainClosed fs = fs.map some ++ [none] ∧
        (drainClosed fs).countP (fun o => o.isNone) = 1) := by
  constructor
  · intro cap s
    simp [chanEnabled, List.isEmpty_iff, Bool.and_eq_true]
  · intro fs
    exact ⟨drainClosed_eq fs, drainClosed_one_terminal fs⟩

/-- One MoQ group as built by the publisher: the frames written into it, in
order, and whether it has been closed. -/
structure Group where
  writes : List Payload
  closed : Bool
deriving DecidableEq, Repr

/-- `track_producer.append_group()` (lib.rs line 278): a fresh, open, empty
group. -/
def append_group : Group := { writes := [], closed := false }

/-- `group.write_frame(data)` (lib.rs line 279): append one payload to the
group. -/
def Group.write_frame (g : Group) (data : Payload) : Group :=
  { g with writes := g.writes ++ [data] }

/-- `group.close()` (lib.rs line 280): mark the group closed. -/
def Group.close (g : Group) : Group := { g with closed := true }

/-- One iteration of the drain loop body (lib.rs lines 278-280): open a new
group on the track, write the frame's payload, close the group. -/
def publishFrame (track : List Group) (data : Payload) : List Group :=
  track ++ [(append_group.write_frame data).close]

/-- The drain loop of run_moq_publisher (lib.rs lines 271-281): while `recv`
yields `Some((data, _timestamp_us))`, increment `frame_count` and publish the
payload as one group.  The timestamp is bound but never written. -/
def publishLoop : List Frame → List Group → Nat → List Group × Nat
  | [], track, frame_count => (track, frame_count)
  | f :: rest, track, frame_count =>
      publishLoop rest (publishFrame track f.payload) (frame_count + 1)

/-- The group the loop body produces for a frame: closed, holding exactly one
write, the frame's payload. -/
def publishedGroup (f : Frame) : Group := { writes := [f.payload], closed := true }

theorem publishLoop_append (fs : List Frame) :
    ∀ (track : List Group) (frame_count : Nat),
      publishLoop fs track frame_count
        = (track ++ fs.map publishedGroup, frame_count + fs.length) := by
  induction fs with
  | nil => intro track frame_count; simp [publishLoop]
  | cons f rest ih =>
      intro track frame_count
      rw [publishLoop, ih]
      refine Prod.ext ?_ ?_
      · simp [publishFrame, append_group, Group.write_frame, Group.close,
              publishedGroup, List.append_assoc]
      · simp only [List.length_cons]
        omega

/-- C3: draining M frames publishes exactly M groups on the track, in the
order of the frames, each group closed and containing exactly one write equal
to that frame's payload; the timestamp is not written into any group. -/
theorem c3_one_group_per_frame :
    ∀ fs : List Frame,
      (publishLoop fs [] 0).1 = fs.map publishedGroup ∧
      (publishLoop fs [] 0).2 = fs.length ∧
      ∀ f : Frame, (publishedGroup f).writes = [f.payload] ∧
        (publishedGroup f).closed = true := by
  intro fs
  rw [publishLoop_append]
  exact ⟨by simp, by simp, fun f => ⟨rfl, rfl⟩⟩

/-- GStreamer flow errors as returned by the appsink callback: the source
uses `FlowError::Eos` and `FlowError::Error`. -/
inductive FlowError where
  | eos
  | error
deriving DecidableEq, Repr

/-- GStreamer flow success values: the source uses `FlowSuccess::Ok`. -/
inductive FlowSuccess where
  | ok
deriving DecidableEq, Repr

/-- lib.rs lines 193-194: `pts = buffer.pts().unwrap_or(ClockTime::ZERO)`
then `timestamp_us = pts.nseconds() / 1000` (u64 integer division). -/
def timestamp_us_of (pts : Option Nat) : Nat := pts.getD 0 / 1000

/-- Environment of one invocation of the new_sample callback: whether
`pull_sample` succeeds, whether the sample has a buffer, the buffer's
presentation timestamp in nanoseconds if supplied, whether `map_readable`
succeeds, the buffer's bytes, and whether the blocking send on the frame
channel succeeds (it fails exactly when the channel is closed). -/
structure SampleEnv where
  pullOk : Bool
  bufferPresent : Bool
  pts : Option Nat
  mapOk : Bool
  payload : Payload
  sendOk : Bool
deriving DecidableEq, Repr

/-- The new_sample callback (lib.rs lines 184-215).  First component: the
flow result handed back to the pipeline; second component: the frame
delivered into the channel, if the send succeeded. -/
def new_sample (env : SampleEnv) : Except FlowError FlowSuccess × Option Frame :=
  if !env.pullOk then (Except.error FlowError.eos, none)
  else if !env.bufferPresent then (Except.error FlowError.error, none)
  else
    let ts := timestamp_us_of env.pts
    if !env.mapOk then (Except.error FlowError.error, none)
    else if !env.sendOk then (Except.error FlowError.error, none)
    else (Except.ok FlowSuccess.ok, some { payload := env.payload, timestamp_us := ts })

/-- The appsink's contract: it invokes the callback once per sample until the
callback returns a flow error, after which it stops invoking it.  Returns the
frames sent into the channel and the error that stopped the stream, if any. -/
def processSamples : List SampleEnv → List Frame × Option FlowError
  | [] => ([], none)
  | env :: rest =>
      match new_sample env with
      | (Except.error e, _) => ([], some e)
      | (Except.ok _, of) =>
          match processSamples rest with
          | (fs, r) => (of.toList ++ fs, r)

/-- C6: the frame emitted by the per-unit callback carries a timestamp in
microseconds equal to the buffer's presentation timestamp in nanoseconds
divided by 1000 (integer division), and equal to zero when the upstream
stage supplies no presentation timestamp. -/
theorem c6_timestamp_microseconds (env : SampleEnv) (f : Frame)
    (h : (new_sample env).2 = some f) :
    f.timestamp_us = timestamp_us_of env.pts ∧
    (∀ n : Nat, env.pts = some n → f.timestamp_us = n / 1000) ∧
    (env.pts = none → f.timestamp_us = 0) := by
  have hts : f.timestamp_us = timestamp_us_of env.pts := by
    cases hp : env.pullOk with
    | false => simp [new_sample, hp] at h
    | true =>
      cases hb : env.bufferPresent with
      | false => simp [new_sample, hp, hb] at h
      | true =>
        cases hm : env.mapOk with
        | false => simp [new_sample, hp, hb, hm] at h
        | true =>
          cases hs : env.sendOk with
          | false => simp [new_sample, hp, hb, hm, hs] at h
          | true =>
            simp only [new_sample, hp, hb, hm, hs, Bool.not_true,
              Bool.false_eq_true, if_false, Option.some.injEq] at h
            rw [← h]
  refine ⟨hts, ?_, ?_⟩
  · intro n hn
    rw [hts, hn, timestamp_us_of, Option.getD_some]
  · intro hn
    rw [hts, hn, timestamp_us_of, Option.getD_none]

/-- A concrete successful callback invocation with a supplied timestamp. -/
def sampleEnvEx : SampleEnv :=
  { pullOk := true, bufferPresent := true, pts := some 5000, mapOk := true,
    payload := [7, 8], sendOk := true }

theorem c6_timestamp_microseconds_witness :
    ({ payload := [7, 8], timestamp_us := 5 } : Frame).timestamp_us
      = timestamp_us_of sampleEnvEx.pts :=
  (c6_timestamp_microseconds sampleEnvEx
    { payload := [7, 8], timestamp_us := 5 } rfl).1

/-- C7: when the blocking send fails because the channel is closed, the
callback returns the fatal flow error `FlowError::Error` to the pipeline, and
the pipeline therefore stops invoking the callback: no frame from any later
sample is processed. -/
theorem c7_send_failure_fatal (env : SampleEnv)
    (h1 : env.pullOk = true) (h2 : env.bufferPresent = true)
    (h3 : env.mapOk = true) (h4 : env.sendOk = false) :
    new_sample env = (Except.error FlowError.error, none) ∧
    ∀ rest : List SampleEnv,
      processSamples (env :: rest) = ([], some FlowError.error) := by
  have hns : new_sample env = (Except.error FlowError.error, none) := by
    simp [new_sample, h1, h2, h3, h4]
  exact ⟨hns, fun rest => by simp [processSamples, hns]⟩

/-- A concrete callback invocation whose send fails (channel closed). -/
def sendFailEnv : SampleEnv :=
  { pullOk := true, bufferPresent := true, pts := none, mapOk := true,
    payload := [1], sendOk := false }

theorem c7_send_failure_fatal_witness :
    new_sample sendFailEnv = (Except.error FlowError.error, none) ∧
    processSamples [sendFailEnv, sampleEnvEx] = ([], some FlowError.error) := by
  have h := c7_send_failure_fatal sendFailEnv rfl rfl rfl rfl
  exact ⟨h.1, h.2 [sampleEnvEx]⟩

/-- GStreamer pipeline states used by the driver: `Null` (stopped) and
`Playing`. -/
inductive GstState where
  | null
  | playing
deriving DecidableEq, Repr

/-- The bus messages the lifecycle loop matches on (lib.rs lines 224-238):
end-of-stream, an error with its message, a warning with its message, and
anything else. -/
inductive BusMessage where
  | eos
  | error (msg : String)
  | warning (msg : String)
  | other
deriving DecidableEq, Repr

/-- Outcome of the lifecycle loop: the pipeline state on return, the value
run_gstreamer_pipeline returns, and the warnings logged along the way. -/
structure BusLoopResult where
  finalState : GstState
  result : Except String Unit
  warningsLogged : List String
deriving Repr

/-- The message-bus lifecycle loop (lib.rs lines 221-242), started with the
pipeline in Playing: Eos breaks the loop, after which the pipeline is set to
Null and Ok(()) is returned; Error sets the pipeline to Null and returns the
error; Warning is logged and the loop continues; other messages are ignored.
`none` means the loop is still blocked waiting on the bus. -/
def busLoop : List BusMessage → List String → Option BusLoopResult
  | [], _ => none
  | BusMessage.eos :: _, warns =>
      some { finalState := GstState.null, result := Except.ok (),
             warningsLogged := warns }
  | BusMessage.error e :: _, warns =>
      some { finalState := GstState.null,
             result := Except.error ("GStreamer pipeline error: " ++ e),
             warningsLogged := warns }
  | BusMessage.warning w :: rest, warns => busLoop rest (warns ++ [w])
  | BusMessage.other :: rest, warns => busLoop rest warns

/-- C8: in the lifecycle loop, a warning is logged and the loop continues (in
particular a subsequent end-of-stream still terminates it cleanly), an error
stops the pipeline and returns a fatal error carrying the message, and
end-of-stream breaks the loop with the pipeline stopped and a successful
return. -/
theorem c8_bus_lifecycle :
    (∀ (w : String) (rest : List BusMessage) (warns : List String),
        busLoop (BusMessage.warning w :: rest) warns
          = busLoop rest (warns ++ [w])) ∧
    (∀ (e : String) (rest : List BusMessage) (warns : List String),
        busLoop (BusMessage.error e :: rest) warns
          = some { finalState := GstState.null,
                   result := Except.error ("GStreamer pipeline error: " ++ e),
                   warningsLogged := warns }) ∧
    (∀ (rest : List BusMessage) (warns : List String),
        busLoop (BusMessage.eos :: rest) warns
          = some { finalState := GstState.null, result := Except.ok (),
                   warningsLogged := warns }) ∧
    busLoop [BusMessage.warning "late buffer", BusMessage.eos] []
      = some { finalState := GstState.null, result := Except.ok (),
               warningsLogged := ["late buffer"] } :=
  ⟨fun _ _ _ => rfl, fun _ _ _ => rfl, fun _ _ => rfl, rfl⟩

/-- The value a driver itself returns: Ok or Err with a message
(anyhow::Result<()> in the source). -/
inductive DriverResult where
  | ok
  | err (msg : String)
deriving DecidableEq, Repr

/-- The value obtained by awaiting a tokio JoinHandle: `joinErr` when the
task panicked or was cancelled (tokio's JoinError), `completed r` when the
task ran to completion returning `r` — so a driver's own Err arrives wrapped
as `completed (err ..)`. -/
inductive JoinResult where
  | joinErr (msg : String)
  | completed (r : DriverResult)
deriving DecidableEq, Repr

/-- Which spawned handle the select! block sees finish first. -/
inductive FirstDone where
  | pipeline
  | publisher
deriving DecidableEq, Repr

/-- The `tokio::select!` block of Pipe2Moq::run (lib.rs lines 105-120): the
arm for whichever handle finishes first runs `if let Err(e) = result`, where
`result` is the JoinHandle value, so only a join error (panic/cancellation)
is returned; a driver's own Err sits inside `completed` and falls through,
and control reaches the trailing `Ok(())`. -/
def runSelect (first : FirstDone) (pipelineJoin publisherJoin : JoinResult) :
    DriverResult :=
  match first with
  | FirstDone.pipeline =>
      match pipelineJoin with
      | JoinResult.joinErr e => DriverResult.err e
      | JoinResult.completed _ => DriverResult.ok
  | FirstDone.publisher =>
      match publisherJoin with
      | JoinResult.joinErr e => DriverResult.err e
      | JoinResult.completed _ => DriverResult.ok

/-- C1 (code bug): a mid-stream GStreamer error makes the capture driver
return Err — yet run() reports overall success, because each select! arm
inspects only the JoinHandle's join result and discards the driver's own
Result.  The same happens when the publisher task completes with Err.  So a
fatal condition does result in run() returning success, contradicting the
claim. -/
theorem c1_run_swallows_driver_error :
    (busLoop [BusMessage.error "internal data stream error"] []).map
        (fun r => r.result)
      = some (Except.error
          "GStreamer pipeline error: internal data stream error") ∧
    runSelect FirstDone.pipeline
        (JoinResult.completed (DriverResult.err
          "GStreamer pipeline error: internal data stream error"))
        (JoinResult.completed DriverResult.ok)
      = DriverResult.ok ∧
    runSelect FirstDone.publisher (JoinResult.completed DriverResult.ok)
        (JoinResult.completed (DriverResult.err "connect failed"))
      = DriverResult.ok :=
  ⟨rfl, rfl, rfl⟩

/-- Environment of one run of run_moq_publisher: whether Client::new, the URL
parse, the connect handshake and create_broadcast succeed, and the frames the
channel delivers to the drain loop. -/
structure PubEnv where
  clientOk : Bool
  urlParseOk : Bool
  connectOk : Bool
  broadcastOk : Bool
  delivered : List Frame
deriving DecidableEq, Repr

/-- Outcome of the publisher task: normal completion with the groups
published and the final frame count, an early Err, or a panic (the source
uses `.expect(..)` on create_broadcast, which panics rather than returning
Err). -/
inductive PubOutcome where
  | ok (groups : List Group) (frame_count : Nat)
  | err (msg : String)
  | panicked (msg : String)
deriving DecidableEq, Repr

/-- run_moq_publisher (lib.rs lines 245-285): Client::new?, Url::parse?,
connect? each propagate Err before any group exists; create_broadcast
panics on failure; create_track cannot fail; then the drain loop runs. -/
def run_moq_publisher (env : PubEnv) : PubOutcome :=
  if !env.clientOk then PubOutcome.err "client config error"
  else if !env.urlParseOk then PubOutcome.err "relay URL parse error"
  else if !env.connectOk then PubOutcome.err "connect error"
  else if !env.broadcastOk then PubOutcome.panicked "Failed to create broadcast"
  else
    match publishLoop env.delivered [] 0 with
    | (track, frame_count) => PubOutcome.ok track frame_count

/-- What awaiting the publisher task's JoinHandle yields for each outcome:
a panic surfaces as a JoinError, a returned Result arrives inside
`completed`. -/
def pubJoinResult : PubOutcome → JoinResult
  | PubOutcome.ok _ _ => JoinResult.completed DriverResult.ok
  | PubOutcome.err e => JoinResult.completed (DriverResult.err e)
  | PubOutcome.panicked m => JoinResult.joinErr m

/-- A publisher startup whose relay URL fails to parse, with a frame already
waiting in the channel. -/
def badUrlEnv : PubEnv :=
  { clientOk := true, urlParseOk := false, connectOk := true,
    broadcastOk := true, delivered := [frameA] }

/-- C2 (code bug): with an unparsable relay URL the publisher does fail
before any group is created (its outcome is an Err, not an `ok` carrying
groups) — but the run does NOT terminate with that error: run()'s select!
arm sees `completed (err ..)` from the JoinHandle and returns success,
contradicting the claim that the run never silently succeeds. -/
theorem c2_startup_failure_swallowed :
    run_moq_publisher badUrlEnv = PubOutcome.err "relay URL parse error" ∧
    runSelect FirstDone.publisher (JoinResult.completed DriverResult.ok)
        (pubJoinResult (run_moq_publisher badUrlEnv))
      = DriverResult.ok :=
  ⟨rfl, rfl⟩

/-- The command-line flags parsed by clap (main.rs Args struct): each
optional, `none` when the flag was not given.  Note main.rs declares a
`--frame-size` flag. -/
structure ArgsM where
  relay_url : Option String
  broadcast_path : Option String
  track_name : Option String
  sink_name : Option String
  bitrate : Option Nat
  sample_rate : Option Nat
  channels : Option Nat
  complexity : Option Nat
  frame_size : Option Nat
deriving DecidableEq, Repr

/-- The configuration extracted from the TOML file merged with
PIPE2MOQ_-prefixed environment variables (main.rs ConfigFile): the relay
strings default to the empty string, the rest to `none`. -/
structure ConfigFileM where
  relay_url : String
  relay_broadcast_path : String
  relay_track_name : String
  audio_sample_rate : Option Nat
  audio_channels : Option Nat
  audio_bitrate : Option Nat
  audio_application : Option String
  audio_complexity : Option Nat
  audio_frame_size : Option Nat
  pipeline_buffer_time : Option Nat
  pipeline_latency_time : Option Nat
  pipeline_sink_name : Option String
deriving DecidableEq, Repr

/-- The effective configuration main builds and hands to Pipe2Moq::new. -/
structure EffectiveConfig where
  relay_url : String
  broadcast_path : String
  track_name : String
  sample_rate : Nat
  channels : Nat
  bitrate : Nat
  application : String
  complexity : Nat
  frame_size : Nat
  sink_name : Option String
  buffer_time : Nat
  latency_time : Nat
deriving DecidableEq, Repr

/-- The merge main performs (main.rs lines 132-162), field by field:
`args.X.or(config section X).unwrap_or(default)` — except that `application`
has no flag, and `frame_size` is taken from
`config.audio.frame_size.unwrap_or(20)` alone, the parsed `args.frame_size`
never being read. -/
def mergeConfig (args : ArgsM) (config : ConfigFileM) : EffectiveConfig :=
  { relay_url :=
      (args.relay_url.orElse fun _ =>
        if config.relay_url = "" then none
        else some config.relay_url).getD "https://localhost:4443/anon"
  , broadcast_path :=
      (args.broadcast_path.orElse fun _ =>
        if config.relay_broadcast_path = "" then none
        else some config.relay_broadcast_path).getD "/live/audio.hang"
  , track_name :=
      (args.track_name.orElse fun _ =>
        if config.relay_track_name = "" then none
        else some config.relay_track_name).getD "audio"
  , sample_rate := (args.sample_rate.orElse fun _ => config.audio_sample_rate).getD 48000
  , channels := (args.channels.orElse fun _ => config.audio_channels).getD 2
  , bitrate := (args.bitrate.orElse fun _ => config.audio_bitrate).getD 96000
  , application := config.audio_application.getD "voip"
  , complexity := (args.complexity.orElse fun _ => config.audio_complexity).getD 5
  , frame_size := config.audio_frame_size.getD 20
  , sink_name := args.sink_name.orElse fun _ => config.pipeline_sink_name
  , buffer_time := config.pipeline_buffer_time.getD 20000
  , latency_time := config.pipeline_latency_time.getD 10000 }

/-- Command line supplying every flag of main.rs. -/
def argsBoth : ArgsM :=
  { relay_url := some "https://cli.example:4443/anon"
  , broadcast_path := some "/cli/audio"
  , track_name := some "cli-track"
  , sink_name := some "cli-sink"
  , bitrate := some 128000
  , sample_rate := some 44100
  , channels := some 1
  , complexity := some 9
  , frame_size := some 40 }

/-- Configuration file supplying every field, with values distinct from the
command line's. -/
def configBoth : ConfigFileM :=
  { relay_url := "https://file.example:4443/anon"
  , relay_broadcast_path := "/file/audio"
  , relay_track_name := "file-track"
  , audio_sample_rate := some 22050
  , audio_channels := some 6
  , audio_bitrate := some 64000
  , audio_application := some "voice"
  , audio_complexity := some 1
  , audio_frame_size := some 10
  , pipeline_buffer_time := some 5000
  , pipeline_latency_time := some 2500
  , pipeline_sink_name := some "file-sink" }

/-- C9 (code bug): with every field supplied by both the command line and the
configuration file, the effective configuration takes the command-line value
for relay URL, broadcast path, track name, sink name, bitrate, sample rate,
channels and complexity — but frame_size, though a `--frame-size` flag is
parsed, takes the configuration-file value: main never reads
args.frame_size. -/
theorem c9_cli_precedence_gap :
    (mergeConfig argsBoth configBoth).relay_url = "https://cli.example:4443/anon" ∧
    (mergeConfig argsBoth configBoth).broadcast_path = "/cli/audio" ∧
    (mergeConfig argsBoth configBoth).track_name = "cli-track" ∧
    (mergeConfig argsBoth configBoth).sink_name = some "cli-sink" ∧
    (mergeConfig argsBoth configBoth).bitrate = 128000 ∧
    (mergeConfig argsBoth configBoth).sample_rate = 44100 ∧
    (mergeConfig argsBoth configBoth).channels = 1 ∧
    (mergeConfig argsBoth configBoth).complexity = 9 ∧
    argsBoth.frame_size = some 40 ∧
    (mergeConfig argsBoth configBoth).frame_size = 10 :=
  ⟨rfl, rfl, rfl, rfl, rfl, rfl, rfl, rfl, rfl, rfl⟩

/-- lib.rs line 161: the opusenc audio-type property is set to "voice" when
the configured application string equals "voice", and to "generic"
otherwise. -/
def opus_audio_type (application : String) : String :=
  if application = "voice" then "voice" else "generic"

/-- A command line supplying no flags. -/
def argsNone : ArgsM :=
  { relay_url := none, broadcast_path := none, track_name := none
  , sink_name := none, bitrate := none, sample_rate := none
  , channels := none, complexity := none, frame_size := none }

/-- A configuration file (and environment) supplying nothing. -/
def configNone : ConfigFileM :=
  { relay_url := "", relay_broadcast_path := "", relay_track_name := ""
  , audio_sample_rate := none, audio_channels := none, audio_bitrate := none
  , audio_application := none, audio_complexity := none
  , audio_frame_size := none, pipeline_buffer_time := none
  , pipeline_latency_time := none, pipeline_sink_name := none }

/-- C10: the encoder is put in voice-optimized mode if and only if the
application string is exactly "voice"; every other value yields generic
mode — in particular the default "voip" that main assigns when no
application is configured. -/
theorem c10_voice_iff :
    (∀ application : String,
        opus_audio_type application = "voice" ↔ application = "voice") ∧
    (∀ application : String,
        application = "voice" ∨ opus_audio_type application = "generic") ∧
    (mergeConfig argsNone configNone).application = "voip" ∧
    opus_audio_type ((mergeConfig argsNone configNone).application)
      = "generic" := by
  refine ⟨?_, ?_, rfl, by decide⟩
  · intro application
    constructor
    · intro hvo
      by_contra hne
      rw [opus_audio_type, if_neg hne] at hvo
      exact absurd hvo (by decide)
    · intro hv
      rw [opus_audio_type, if_pos hv]
  · intro application
    by_cases h : application = "voice"
    · exact Or.inl h
    · exact Or.inr (by rw [opus_audio_type, if_neg h])

end Pipe2Moq
